import Mathlib

/-!
Verification of the kcp multicluster provider's wildcard cache and
cluster-scoping layer (`virtualworkspace` package), shallowly embedded in
Lean 4.  Go maps become association lists, Go `error` values become an
explicit `GoError` inductive, informer/client handles become opaque `Nat`
identifiers, and the event-callback machinery becomes pure functions from
events to optional forwarded handler calls.
-/

set_option autoImplicit false

namespace KcpProvider

/-! ## Association-list maps (embedding of Go maps) -/

/-- Lookup in a Go map modelled as an association list. -/
def mapLookup {K V : Type} [DecidableEq K] : List (K × V) → K → Option V
  | [], _ => none
  | (k', v) :: rest, k => if k' = k then some v else mapLookup rest k

/-- Removal of a key, `delete(m, k)` in Go. -/
def mapErase {K V : Type} [DecidableEq K] : List (K × V) → K → List (K × V)
  | [], _ => []
  | (k', v) :: rest, k =>
    if k' = k then mapErase rest k else (k', v) :: mapErase rest k

/-- Insertion with overwrite, `m[k] = v` in Go. -/
def mapInsert {K V : Type} [DecidableEq K] (m : List (K × V)) (k : K) (v : V) :
    List (K × V) :=
  (k, v) :: mapErase m k

theorem mapLookup_erase_self {K V : Type} [DecidableEq K]
    (m : List (K × V)) (k : K) : mapLookup (mapErase m k) k = none := by
  induction m with
  | nil => rfl
  | cons hd tl ih =>
    obtain ⟨k', v⟩ := hd
    by_cases h : k' = k <;> simp [mapErase, mapLookup, h, ih]

theorem mapLookup_erase_ne {K V : Type} [DecidableEq K]
    (m : List (K × V)) (k k' : K) (h : k' ≠ k) :
    mapLookup (mapErase m k) k' = mapLookup m k' := by
  induction m with
  | nil => rfl
  | cons hd tl ih =>
    obtain ⟨k₀, v⟩ := hd
    by_cases h0 : k₀ = k
    · subst h0
      simp [mapErase, mapLookup, Ne.symm h, ih]
    · by_cases h1 : k₀ = k' <;> simp [mapErase, mapLookup, h0, h1, h, ih]

theorem mapLookup_insert_self {K V : Type} [DecidableEq K]
    (m : List (K × V)) (k : K) (v : V) :
    mapLookup (mapInsert m k v) k = some v := by
  simp [mapInsert, mapLookup]

theorem mapLookup_insert_ne {K V : Type} [DecidableEq K]
    (m : List (K × V)) (k k' : K) (v : V) (h : k' ≠ k) :
    mapLookup (mapInsert m k v) k' = mapLookup m k' := by
  simp [mapInsert, mapLookup, Ne.symm h, mapLookup_erase_ne m k k' h]

/-! ## Objects and the cluster annotation

An object carries a name, a namespace and its metadata annotations.  The
logical-cluster identity of an object is read from the `kcp.io/cluster`
annotation (`logicalcluster.From`, which returns the empty name when the
annotation is absent, matching Go's zero value for a missing map key). -/

/-- `kcp.io/cluster`, the annotation key carrying the owning logical
cluster (`logicalcluster.AnnotationKey`). -/
def clusterAnnotationKey : String := "kcp.io/cluster"

/-- A Kubernetes object as seen by this layer: metadata only. -/
structure KObject where
  name : String
  ns : String
  annotations : List (String × String)
  deriving DecidableEq

/-- `obj.GetAnnotations()[key]` — Go map indexing returns the zero value
`""` for a missing key. -/
def annotationOrEmpty (obj : KObject) (key : String) : String :=
  (mapLookup obj.annotations key).getD ""

/-- `logicalcluster.From(obj)`: the object's logical-cluster identity,
read from the `kcp.io/cluster` annotation. -/
def logicalclusterFrom (obj : KObject) : String :=
  annotationOrEmpty obj clusterAnnotationKey

/-! ## Go errors

`fmt.Errorf` without `%w` yields an opaque formatted error; `%w` wraps an
inner error; Kubernetes API status errors carry a machine-readable
reason.  `apierrors.IsNotFound` recognizes exactly status errors with
reason `NotFound`, unwrapping wrapped errors. -/

inductive GoError where
  | fmtError (msg : String)
  | wrapped (msg : String) (inner : GoError)
  | statusError (reason : String)
  deriving DecidableEq

/-- `apierrors.IsNotFound`: true exactly for (possibly wrapped) API status
errors whose reason is `NotFound`; plain `fmt.Errorf` errors are never
recognized. -/
def isNotFound : GoError → Bool
  | .fmtError _ => false
  | .wrapped _ inner => isNotFound inner
  | .statusError reason => reason = "NotFound"

/-! ## Informer tracker (wildcard cache)

`informerTracker` holds three disjoint maps from `GroupVersionKind` to the
shared informer for that kind, partitioned by the structural category of
the Go object (`informersByType`'s type switch).  Informers are opaque
`Nat` handles. -/

/-- `schema.GroupVersionKind`. -/
structure GVK where
  group : String
  version : String
  kind : String
  deriving DecidableEq

/-- `String()` rendering of a `GroupVersionKind` as used in error
messages (`%s` on the value). -/
def gvkStr (gvk : GVK) : String :=
  gvk.group ++ "/" ++ gvk.version ++ ", Kind=" ++ gvk.kind

/-- The structural category resolved by `informersByType`'s type switch:
`runtime.Unstructured`, `*metav1.PartialObjectMetadata`(-`List`), or the
structured default. -/
inductive ObjCategory where
  | structured
  | unstructured
  | metadata
  deriving DecidableEq

/-- The `informerTracker` struct: three category sub-maps. -/
structure InformerTracker where
  structuredInfs : List (GVK × Nat)
  unstructuredInfs : List (GVK × Nat)
  metadataInfs : List (GVK × Nat)
  deriving DecidableEq

/-- `informerTracker.informersByType`: select the sub-map for the object's
structural category. -/
def informersByType (t : InformerTracker) : ObjCategory → List (GVK × Nat)
  | .structured => t.structuredInfs
  | .unstructured => t.unstructuredInfs
  | .metadata => t.metadataInfs

/-- Store an informer into the sub-map selected by the category
(`infs[gvk] = inf` through the pointer returned by `informersByType`). -/
def trackerStore (t : InformerTracker) (cat : ObjCategory) (gvk : GVK)
    (inf : Nat) : InformerTracker :=
  match cat with
  | .structured => { t with structuredInfs := mapInsert t.structuredInfs gvk inf }
  | .unstructured => { t with unstructuredInfs := mapInsert t.unstructuredInfs gvk inf }
  | .metadata => { t with metadataInfs := mapInsert t.metadataInfs gvk inf }

/-- The registration step of the `opts.NewInformer` constructor installed
by `NewWildcardCache` (and by `withClusterIndexes`): under the tracker
lock, panic if an informer for the kind already exists in the category's
sub-map, otherwise store the new informer.  `none` models the panic. -/
def newInformerRegister (t : InformerTracker) (cat : ObjCategory) (gvk : GVK)
    (inf : Nat) : Option InformerTracker :=
  match mapLookup (informersByType t cat) gvk with
  | some _ => none
  | none => some (trackerStore t cat gvk inf)

/-- `wildcardCache.getSharedInformer`, tracker-lookup step: the informer
for the kind in the category's sub-map, plus the `found` flag. -/
def getSharedInformer (t : InformerTracker) (cat : ObjCategory) (gvk : GVK) :
    Option Nat :=
  mapLookup (informersByType t cat) gvk

/-! ## Scoped cache `Get` (informer-resolution prefix)

`scopedCache.Get` resolves the kind's informer via `infGetter`; on a
resolution error it returns a wrapped error, on `found == false` it
returns a plain `fmt.Errorf` error, and otherwise it proceeds to an
index-qualified `cacheReader` lookup (whose body lives outside this
layer; the step is represented by `readFrom`). -/

inductive GetStep where
  | failed (e : GoError)
  | readFrom (inf : Nat) (clusterName : String) (gvk : GVK)
  deriving DecidableEq

/-- `scopedCache.Get` up to the hand-off to `cacheReader`.  `resolveErr`
models a failure of GVK/REST-mapping resolution inside `infGetter`. -/
def scopedCacheGet (resolveErr : Option GoError) (t : InformerTracker)
    (clusterName : String) (cat : ObjCategory) (gvk : GVK) : GetStep :=
  match resolveErr with
  | some e => .failed (.wrapped ("failed to get informer for " ++ gvkStr gvk) e)
  | none =>
    match getSharedInformer t cat gvk with
    | none => .failed (.fmtError ("no informer found for " ++ gvkStr gvk))
    | some inf => .readFrom inf clusterName gvk

/-! ## Provider registry and discovery loop

The provider owns two maps guarded by one RW lock: identity to scoped
cluster and identity to cancel function.  Scoped clusters and cancel
functions are opaque `Nat` handles; a step returns the list of cancel
functions invoked during it. -/

structure ProviderState where
  clusters : List (String × Nat)
  cancelFns : List (String × Nat)
  deriving DecidableEq

/-- The `not found` message of `Provider.Get` (`fmt.Errorf("cluster %q not
found", name)`; `%q` quotes the name). -/
def clusterNotFoundMsg (name : String) : String :=
  "cluster \"" ++ name ++ "\" not found"

/-- `Provider.Get`: read-locked registry lookup; absent identities yield a
plain formatted error. -/
def providerGet (p : ProviderState) (name : String) : Except GoError Nat :=
  match mapLookup p.clusters name with
  | some cl => .ok cl
  | none => .error (.fmtError (clusterNotFoundMsg name))

/-- The engagement-failure rollback block of `Provider.Run`'s `AddFunc`
(provider.go:156-162): under the write lock, call `cancel()`, then delete
the registry entries only if the stored cluster is still the one just
created.  Returns the new state and the cancel functions invoked. -/
def engageRollback (p : ProviderState) (name : String) (cl cancelFn : Nat) :
    ProviderState × List Nat :=
  if mapLookup p.clusters name = some cl then
    (⟨mapErase p.clusters name, mapErase p.cancelFns name⟩, [cancelFn])
  else
    (p, [cancelFn])

/-- `Provider.Run`'s `AddFunc` for a discovery add event, sequential
semantics.  `newCl`/`newCancel` are the handles produced by
`newScopedCluster` and `context.WithCancel`; `createErr` models a
`newScopedCluster` failure and `engageErr` an `mgr.Engage` failure. -/
def addFunc (p : ProviderState) (name : String) (newCl newCancel : Nat)
    (createErr engageErr : Bool) : ProviderState × List Nat :=
  -- fast path under the read lock
  if (mapLookup p.clusters name).isSome then (p, [])
  -- re-check under the write lock (double-checked locking)
  else if (mapLookup p.clusters name).isSome then (p, [])
  else if createErr then (p, [newCancel])
  else
    let p1 : ProviderState :=
      ⟨mapInsert p.clusters name newCl, mapInsert p.cancelFns name newCancel⟩
    if engageErr then engageRollback p1 name newCl newCancel
    else (p1, [])

/-- `Provider.Run`'s `DeleteFunc` for a discovery delete event.
`indexErr` models an `IndexKeys` failure, `indexKeysEmpty` whether the
cluster index holds no keys for the identity (`len(keys) == 0`). -/
def deleteFunc (p : ProviderState) (name : String)
    (indexErr indexKeysEmpty : Bool) : ProviderState × List Nat :=
  if indexErr then (p, [])
  else if !indexKeysEmpty then (p, [])
  else
    match mapLookup p.cancelFns name with
    | some cancelFn =>
      (⟨mapErase p.clusters name, mapErase p.cancelFns name⟩, [cancelFn])
    | none => (p, [])

/-- A discovery event processed by the provider's event handler. -/
inductive ProviderEvent where
  | added (name : String) (newCl newCancel : Nat) (createErr engageErr : Bool)
  | deleted (name : String) (indexErr indexKeysEmpty : Bool)

/-- One event-handler invocation. -/
def providerStep (p : ProviderState) : ProviderEvent → ProviderState
  | .added name newCl newCancel createErr engageErr =>
    (addFunc p name newCl newCancel createErr engageErr).1
  | .deleted name indexErr indexKeysEmpty =>
    (deleteFunc p name indexErr indexKeysEmpty).1

/-- A sequence of event-handler invocations. -/
def providerRun (p : ProviderState) : List ProviderEvent → ProviderState
  | [] => p
  | ev :: evs => providerRun (providerStep p ev) evs

/-- The registry invariant: the cluster map and the cancel-function map
bind exactly the same identities. -/
def keysMatch (p : ProviderState) : Prop :=
  ∀ k, (mapLookup p.clusters k).isSome = (mapLookup p.cancelFns k).isSome

/-! ## Scoped informer event filtering

`scopedInformer.AddEventHandler` and `AddEventHandlerWithResyncPeriod`
wrap the caller's handler in identical
`ResourceEventHandlerDetailedFuncs`: each callback forwards the event to
the wrapped handler exactly when the event object's logical cluster
equals the informer's bound cluster, and drops it otherwise.  A delete
payload may be a `DeletedFinalStateUnknown` tombstone, unwrapped before
identity extraction but forwarded as received. -/

inductive DeletePayload where
  | plain (obj : KObject)
  | tombstone (obj : KObject)
  deriving DecidableEq

/-- `tombStone.Obj` extraction: the object whose identity is checked. -/
def unwrapDeleted : DeletePayload → KObject
  | .plain obj => obj
  | .tombstone obj => obj

/-- An event delivered by the shared wildcard stream. -/
inductive InformerEvent where
  | added (obj : KObject) (isInInitialList : Bool)
  | updated (oldObj newObj : KObject)
  | deleted (payload : DeletePayload)
  deriving DecidableEq

/-- A call into the wrapped `ResourceEventHandler`. -/
inductive HandlerCall where
  | onAdd (obj : KObject) (isInInitialList : Bool)
  | onUpdate (oldObj newObj : KObject)
  | onDelete (payload : DeletePayload)
  deriving DecidableEq

/-- The filtering adapter installed by `scopedInformer.AddEventHandler`
(and, identically, by `AddEventHandlerWithResyncPeriod`): `none` means the
event is silently dropped, `some c` that the wrapped handler is invoked
with call `c`. -/
def scopedEventFilter (clusterName : String) : InformerEvent → Option HandlerCall
  | .added obj isInInitialList =>
    if logicalclusterFrom obj == clusterName then
      some (.onAdd obj isInInitialList)
    else none
  | .updated oldObj newObj =>
    if logicalclusterFrom newObj == clusterName then
      some (.onUpdate oldObj newObj)
    else none
  | .deleted payload =>
    if logicalclusterFrom (unwrapDeleted payload) == clusterName then
      some (.onDelete payload)
    else none

/-- The object whose logical-cluster identity decides forwarding: the
added object, the update's new object, the delete payload after tombstone
unwrapping. -/
def eventIdentityObject : InformerEvent → KObject
  | .added obj _ => obj
  | .updated _ newObj => newObj
  | .deleted payload => unwrapDeleted payload

/-- The handler call a forwarded event produces, with payloads as
received from the shared stream. -/
def forwardedCall : InformerEvent → HandlerCall
  | .added obj isInInitialList => .onAdd obj isInInitialList
  | .updated oldObj newObj => .onUpdate oldObj newObj
  | .deleted payload => .onDelete payload

/-! ## `IndexField` of the wildcard cache

`wildcardCache.IndexField` registers, with the underlying cache, an index
named `"cluster/" + field` whose indexer writes, into a slice
preallocated at twice the extractor's key count, the cross product of
\x7bowning cluster, `"*"`\x7d with the extracted keys: position `i` gets
`cluster + "/" + keys[i]` and position `i + len(keys)` gets
`"*/" + keys[i]`. -/

/-- The `for i, key := range keys` loop body over the preallocated slice:
two `set`s per key, walking the write index. -/
def fillWithCluster (n : Nat) (clusterName : String) :
    List String → Nat → List String → List String
  | acc, _, [] => acc
  | acc, i, key :: keys =>
    fillWithCluster n clusterName
      ((acc.set i (clusterName ++ "/" ++ key)).set (i + n) ("*/" ++ key))
      (i + 1) keys

/-- The indexer's result on extracted keys for an object owned by
`clusterName`: `make([]string, len(keys)*2)` then the fill loop. -/
def withClusterKeys (clusterName : String) (keys : List String) : List String :=
  fillWithCluster keys.length clusterName
    (List.replicate (2 * keys.length) "") 0 keys

/-- An index registration handed to the underlying cache's `IndexField`. -/
structure IndexRegistration where
  fieldName : String
  indexer : KObject → List String

/-- `wildcardCache.IndexField`: registers under `"cluster/" + field` the
cross-product indexer. -/
def wildcardIndexField (field : String) (extractValue : KObject → List String) :
    IndexRegistration :=
  { fieldName := "cluster/" ++ field
    indexer := fun obj => withClusterKeys (logicalclusterFrom obj) (extractValue obj) }

/-- `scopedCache.IndexField`: delegates to the wildcard cache unchanged. -/
def scopedCacheIndexField (field : String)
    (extractValue : KObject → List String) : IndexRegistration :=
  wildcardIndexField field extractValue

/-- `Provider.IndexField`: delegates to the wildcard cache unchanged. -/
def providerIndexField (field : String)
    (extractValue : KObject → List String) : IndexRegistration :=
  wildcardIndexField field extractValue

/-- Lookup of a registered index by field name in the underlying cache's
registration list. -/
def findRegistration (regs : List IndexRegistration) (name : String) :
    Option IndexRegistration :=
  regs.find? (fun r => r.fieldName == name)

/-! ## Scoped cluster

`newScopedCluster` bundles the scoped cache with per-cluster client,
mapper and transport handles.  `GetAPIReader`'s body is
`return c.GetAPIReader()` — a self-call with the same receiver and no
arguments, so its evaluation under any finite call budget never produces
a value; `getAPIReaderFuel` makes the budget explicit (`none` means the
budget is exhausted without the call returning). -/

structure ScopedCluster where
  clusterName : String
  schemeId : Nat
  configId : Nat
  httpClientId : Nat
  clientId : Nat
  mapperId : Nat
  cacheId : Nat
  deriving DecidableEq

/-- `scopedCluster.GetCache`: returns the scoped cache handle. -/
def getCache (c : ScopedCluster) : Nat :=
  c.cacheId

/-- `scopedCluster.GetAPIReader` under an explicit call budget: the body
immediately re-invokes `GetAPIReader` on the same receiver, consuming one
unit of budget per nested call and never reaching a `return` of any
reader value. -/
def getAPIReaderFuel (c : ScopedCluster) : Nat → Option Nat
  | 0 => none
  | fuel + 1 => getAPIReaderFuel c fuel

/-! ## Cluster-name enqueue adapter

`TypedEnqueueRequestForObject` maps object lifecycle events to
cluster-qualified reconcile requests.  Go's nil objects become `none`;
`q.Add` appends to the queue. -/

/-- `mcreconcile.Request`: cluster name plus namespaced name. -/
structure McRequest where
  clusterName : String
  ns : String
  name : String
  deriving DecidableEq

/-- The request built from an object: cluster name from the
`kcp.io/cluster` annotation, namespaced name from metadata. -/
def requestForObject (obj : KObject) : McRequest :=
  { clusterName := annotationOrEmpty obj clusterAnnotationKey
    ns := obj.ns
    name := obj.name }

/-- `Create` of the enqueue adapter (`Delete` and `Generic` are
identical): drop nil objects, otherwise enqueue one request. -/
def enqueueCreate (obj : Option KObject) (q : List McRequest) : List McRequest :=
  match obj with
  | none => q
  | some o => q ++ [requestForObject o]

/-- `Delete` of the enqueue adapter. -/
def enqueueDelete (obj : Option KObject) (q : List McRequest) : List McRequest :=
  match obj with
  | none => q
  | some o => q ++ [requestForObject o]

/-- `Generic` of the enqueue adapter. -/
def enqueueGeneric (obj : Option KObject) (q : List McRequest) : List McRequest :=
  match obj with
  | none => q
  | some o => q ++ [requestForObject o]

/-- `Update` of the enqueue adapter: the `switch` prefers a non-nil new
object, falls back to a non-nil old object, and otherwise enqueues
nothing. -/
def enqueueUpdate (objOld objNew : Option KObject) (q : List McRequest) :
    List McRequest :=
  match objNew with
  | some n => q ++ [requestForObject n]
  | none =>
    match objOld with
    | some o => q ++ [requestForObject o]
    | none => q

/-! ## Helper lemmas for the index fill loop -/

theorem set_at_append (A tail : List String) (v : String) :
    (A ++ ("" :: tail)).set A.length v = A ++ (v :: tail) := by
  induction A with
  | nil => rfl
  | cons a A ih => simp [List.set, ih]

theorem set_at_append_idx (A tail : List String) (v : String) (n : Nat)
    (h : n = A.length) :
    (A ++ ("" :: tail)).set n v = A ++ (v :: tail) := by
  subst h
  exact set_at_append A tail v

theorem fillWithCluster_invariant (c : String) :
    ∀ ks done : List String,
      fillWithCluster (done.length + ks.length) c
        (done.map (fun k => c ++ "/" ++ k) ++ List.replicate ks.length ""
          ++ done.map (fun k => "*/" ++ k) ++ List.replicate ks.length "")
        done.length ks
      = (done ++ ks).map (fun k => c ++ "/" ++ k)
        ++ (done ++ ks).map (fun k => "*/" ++ k) := by
  intro ks
  induction ks with
  | nil => intro done; simp [fillWithCluster]
  | cons k ks ih =>
    intro done
    rw [fillWithCluster]
    have hacc :
        (done.map (fun k => c ++ "/" ++ k) ++ List.replicate (k :: ks).length ""
            ++ done.map (fun k => "*/" ++ k) ++ List.replicate (k :: ks).length "")
          = done.map (fun k => c ++ "/" ++ k)
            ++ ("" :: (List.replicate ks.length ""
                  ++ (done.map (fun k => "*/" ++ k)
                      ++ ("" :: List.replicate ks.length "")))) := by
      simp [List.replicate_succ, List.append_assoc]
    rw [hacc,
      set_at_append_idx (done.map (fun k => c ++ "/" ++ k)) _ _ done.length
        (by simp)]
    have hmid :
        done.map (fun k => c ++ "/" ++ k)
            ++ ((c ++ "/" ++ k) :: (List.replicate ks.length ""
                  ++ (done.map (fun k => "*/" ++ k)
                      ++ ("" :: List.replicate ks.length ""))))
          = ((done.map (fun k => c ++ "/" ++ k) ++ ((c ++ "/" ++ k)
                :: (List.replicate ks.length ""
                      ++ done.map (fun k => "*/" ++ k))))
              ++ ("" :: List.replicate ks.length "")) := by
      simp [List.append_assoc]
    rw [hmid,
      set_at_append_idx _ _ _ (done.length + (done.length + (k :: ks).length))
        (by simp; omega)]
    have hshape :
        (done.map (fun k => c ++ "/" ++ k) ++ ((c ++ "/" ++ k)
              :: (List.replicate ks.length ""
                    ++ done.map (fun k => "*/" ++ k))))
            ++ (("*/" ++ k) :: List.replicate ks.length "")
          = (done ++ [k]).map (fun k => c ++ "/" ++ k)
            ++ List.replicate ks.length ""
            ++ (done ++ [k]).map (fun k => "*/" ++ k)
            ++ List.replicate ks.length "" := by
      simp [List.append_assoc]
    rw [hshape]
    have hn : done.length + (k :: ks).length = (done ++ [k]).length + ks.length := by
      simp; omega
    have hi : done.length + 1 = (done ++ [k]).length := by simp
    rw [hn, hi, ih (done ++ [k])]
    simp

theorem withClusterKeys_eq_cross_product (c : String) (keys : List String) :
    withClusterKeys c keys =
      keys.map (fun k => c ++ "/" ++ k) ++ keys.map (fun k => "*/" ++ k) := by
  unfold withClusterKeys
  have h2 : 2 * keys.length = keys.length + keys.length := by omega
  rw [h2, List.replicate_add]
  have h := fillWithCluster_invariant c keys []
  simpa using h

/-! ## Claim theorems -/

/-- C6: for every field extractor and every object, the indexer installed
by the wildcard cache's `IndexField` produces exactly the cross product
of the owning cluster and the wildcard `"*"` with the extracted values:
keys `c/v1, …, c/vn` followed by `*/v1, …, */vn`. -/
theorem index_field_cross_product (field : String)
    (extractValue : KObject → List String) (obj : KObject) :
    (wildcardIndexField field extractValue).indexer obj =
      (extractValue obj).map (fun v => logicalclusterFrom obj ++ "/" ++ v)
      ++ (extractValue obj).map (fun v => "*/" ++ v) := by
  simp [wildcardIndexField, withClusterKeys_eq_cross_product]

/-- C10: every `IndexField` call on the wildcard cache — and on the
scoped cache and provider, which delegate to it unchanged — registers the
index under the name `"cluster/" + field` rather than the caller-supplied
field name, so a lookup in the underlying cache's registrations under the
original name does not hit the installed index. -/
theorem index_field_registered_under_prefixed_name (field : String)
    (extractValue : KObject → List String) :
    (wildcardIndexField field extractValue).fieldName = "cluster/" ++ field
    ∧ scopedCacheIndexField field extractValue = wildcardIndexField field extractValue
    ∧ providerIndexField field extractValue = wildcardIndexField field extractValue
    ∧ ("cluster/" ++ field) ≠ field
    ∧ findRegistration [wildcardIndexField field extractValue] field = none := by
  have hne : ("cluster/" ++ field) ≠ field := by
    intro h
    have hlen := congrArg String.length h
    rw [String.length_append] at hlen
    have h8 : ("cluster/" : String).length = 8 := rfl
    omega
  have hbeq : (("cluster/" ++ field) == field) = false :=
    beq_eq_false_iff_ne.mpr hne
  refine ⟨rfl, rfl, rfl, hne, ?_⟩
  simp [findRegistration, List.find?, wildcardIndexField, hbeq]

/-- C7: the cluster-name enqueue adapter maps a create, delete or generic
event with a non-nil object to exactly one request carrying the object's
`kcp.io/cluster` annotation value and namespaced name; an update event
prefers the new object and falls back to the old one; events whose
relevant objects are all nil enqueue nothing. -/
theorem enqueue_adapter_mapping (q : List McRequest) (o n : KObject)
    (anyOld : Option KObject) :
    enqueueCreate (some o) q
        = q ++ [⟨annotationOrEmpty o clusterAnnotationKey, o.ns, o.name⟩]
    ∧ enqueueCreate none q = q
    ∧ enqueueDelete (some o) q
        = q ++ [⟨annotationOrEmpty o clusterAnnotationKey, o.ns, o.name⟩]
    ∧ enqueueDelete none q = q
    ∧ enqueueGeneric (some o) q
        = q ++ [⟨annotationOrEmpty o clusterAnnotationKey, o.ns, o.name⟩]
    ∧ enqueueGeneric none q = q
    ∧ enqueueUpdate anyOld (some n) q
        = q ++ [⟨annotationOrEmpty n clusterAnnotationKey, n.ns, n.name⟩]
    ∧ enqueueUpdate (some o) none q
        = q ++ [⟨annotationOrEmpty o clusterAnnotationKey, o.ns, o.name⟩]
    ∧ enqueueUpdate none none q = q := by
  refine ⟨rfl, rfl, rfl, rfl, rfl, rfl, rfl, rfl, rfl⟩

/-- C2: contrary to the claim, `scopedCluster.GetAPIReader` does not
return the scoped cache: its body is `return c.GetAPIReader()`, an
unconditional self-call, so under every finite call budget the evaluation
exhausts the budget without producing any reader — in particular it never
produces the scoped cache handle that `GetCache` returns. -/
theorem getAPIReader_never_returns_scoped_cache (c : ScopedCluster) (fuel : Nat) :
    getAPIReaderFuel c fuel = none
    ∧ getAPIReaderFuel c fuel ≠ some (getCache c) := by
  induction fuel with
  | zero => exact ⟨rfl, by simp [getAPIReaderFuel]⟩
  | succ fuel ih =>
    refine ⟨?_, ?_⟩
    · rw [getAPIReaderFuel]; exact ih.1
    · rw [getAPIReaderFuel]; exact ih.2

/-- C1: for every scoped informer bound to cluster `B` and every add,
update or delete event from the shared wildcard stream, the wrapped
handler is invoked exactly when the event object's logical-cluster
identity (from the `kcp.io/cluster` annotation, extracted after tombstone
unwrapping for deletes) equals `B`; events of any other cluster are
dropped, and forwarded events — updates in particular — carry their
payloads as received. -/
theorem scoped_informer_forwards_iff_cluster_matches (clusterName : String)
    (ev : InformerEvent) :
    scopedEventFilter clusterName ev =
      if logicalclusterFrom (eventIdentityObject ev) = clusterName then
        some (forwardedCall ev)
      else none := by
  cases ev with
  | added obj isInInitialList =>
    simp only [scopedEventFilter, eventIdentityObject, forwardedCall, beq_iff_eq]
  | updated oldObj newObj =>
    simp only [scopedEventFilter, eventIdentityObject, forwardedCall, beq_iff_eq]
  | deleted payload =>
    simp only [scopedEventFilter, eventIdentityObject, forwardedCall, beq_iff_eq]

/-- C9: the forward-or-drop decision for an update event delivered to a
scoped informer depends only on the new object's cluster identity: the
pair is forwarded exactly when the new object's identity equals the bound
cluster, independently of the old object; an update whose new object
belongs elsewhere is dropped even if the old object matches, and one
whose new object matches is forwarded even if the old object does not. -/
theorem update_filter_new_object_only (clusterName : String)
    (oldObj oldObj' newObj : KObject) :
    (scopedEventFilter clusterName (.updated oldObj newObj)
        = some (.onUpdate oldObj newObj)
      ↔ logicalclusterFrom newObj = clusterName)
    ∧ (scopedEventFilter clusterName (.updated oldObj newObj)).isSome
        = (scopedEventFilter clusterName (.updated oldObj' newObj)).isSome
    ∧ (scopedEventFilter clusterName (.updated oldObj newObj) = none
      ↔ logicalclusterFrom newObj ≠ clusterName) := by
  by_cases h : logicalclusterFrom newObj = clusterName <;>
    simp [scopedEventFilter, h]

/-- C8: the wildcard cache's informer constructor keeps at most one
informer per (kind, structural category) pair: a registration that
succeeds found the pair absent and stores the informer in the tracker,
and any second registration attempt for the same pair panics (returns
`none`). -/
theorem informer_registration_at_most_once (t t' : InformerTracker)
    (cat : ObjCategory) (gvk : GVK) (inf inf' : Nat)
    (h : newInformerRegister t cat gvk inf = some t') :
    getSharedInformer t cat gvk = none
    ∧ getSharedInformer t' cat gvk = some inf
    ∧ newInformerRegister t' cat gvk inf' = none := by
  unfold newInformerRegister at h
  cases hl : mapLookup (informersByType t cat) gvk with
  | some x => rw [hl] at h; exact absurd h (by simp)
  | none =>
    rw [hl] at h
    have ht' : t' = trackerStore t cat gvk inf := by
      cases h; rfl
    subst ht'
    have hsel : informersByType (trackerStore t cat gvk inf) cat
        = mapInsert (informersByType t cat) gvk inf := by
      cases cat <;> rfl
    refine ⟨hl, ?_, ?_⟩
    · unfold getSharedInformer
      rw [hsel, mapLookup_insert_self]
    · unfold newInformerRegister
      rw [hsel, mapLookup_insert_self]

/-- Witness for C8 at a concrete tracker: registering a structured kind
in the empty tracker succeeds, finds the informer afterwards, and a
second registration for the same pair panics. -/
theorem informer_registration_at_most_once_witness :
    getSharedInformer ⟨[], [], []⟩ .structured ⟨"g", "v", "K"⟩ = none
    ∧ getSharedInformer
        (trackerStore ⟨[], [], []⟩ .structured ⟨"g", "v", "K"⟩ 1)
        .structured ⟨"g", "v", "K"⟩ = some 1
    ∧ newInformerRegister
        (trackerStore ⟨[], [], []⟩ .structured ⟨"g", "v", "K"⟩ 1)
        .structured ⟨"g", "v", "K"⟩ 2 = none :=
  informer_registration_at_most_once ⟨[], [], []⟩
    (trackerStore ⟨[], [], []⟩ .structured ⟨"g", "v", "K"⟩ 1)
    .structured ⟨"g", "v", "K"⟩ 1 2 rfl

/-- C3, counterexample: `Provider.Get` on an identity absent from an
empty registry does return an error, but it is a plain `fmt.Errorf`
error that the not-found predicate (`apierrors.IsNotFound`) does not
recognize — not a typed not-found condition. -/
theorem provider_get_error_not_recognized_cex :
    providerGet ⟨[], []⟩ "ws1"
        = .error (.fmtError "cluster \"ws1\" not found")
    ∧ isNotFound (GoError.fmtError "cluster \"ws1\" not found") = false :=
  ⟨rfl, rfl⟩

/-- C3, amended: `Provider.Get` on an absent identity and
`scopedCache.Get` on a kind with no registered informer both return
errors, but these are plain formatted (`fmt.Errorf`) errors that the
not-found predicate does not recognize, not typed not-found conditions. -/
theorem absent_lookups_return_plain_errors (p : ProviderState) (name : String)
    (t : InformerTracker) (clusterName : String) (cat : ObjCategory) (gvk : GVK)
    (h1 : mapLookup p.clusters name = none)
    (h2 : getSharedInformer t cat gvk = none) :
    (providerGet p name = .error (.fmtError (clusterNotFoundMsg name))
      ∧ isNotFound (.fmtError (clusterNotFoundMsg name)) = false)
    ∧ (scopedCacheGet none t clusterName cat gvk
          = .failed (.fmtError ("no informer found for " ++ gvkStr gvk))
      ∧ isNotFound (.fmtError ("no informer found for " ++ gvkStr gvk)) = false) := by
  refine ⟨⟨?_, rfl⟩, ⟨?_, rfl⟩⟩
  · unfold providerGet
    rw [h1]
  · unfold scopedCacheGet
    rw [h2]

/-- Witness for C3's amended claim at a concrete empty registry and
tracker. -/
theorem absent_lookups_return_plain_errors_witness :
    (providerGet ⟨[], []⟩ "ws1"
        = .error (.fmtError (clusterNotFoundMsg "ws1"))
      ∧ isNotFound (.fmtError (clusterNotFoundMsg "ws1")) = false)
    ∧ (scopedCacheGet none ⟨[], [], []⟩ "ws1" .structured ⟨"g", "v", "K"⟩
          = .failed (.fmtError ("no informer found for " ++ gvkStr ⟨"g", "v", "K"⟩))
      ∧ isNotFound
          (.fmtError ("no informer found for " ++ gvkStr ⟨"g", "v", "K"⟩)) = false) :=
  absent_lookups_return_plain_errors ⟨[], []⟩ "ws1" ⟨[], [], []⟩ "ws1"
    .structured ⟨"g", "v", "K"⟩ rfl rfl

/-- C4: when engagement fails for a newly discovered cluster, the
provider cancels the sub-context it just created and — provided the
registry still maps the identity to the cluster instance just created —
deletes the identity from both registry maps, so that a subsequent
`Provider.Get` returns not-found.  The first conjunct runs the whole
`AddFunc` path with a failing `Engage`; the remaining conjuncts state the
rollback block's behavior on an arbitrary intermediate registry state. -/
theorem engage_failure_rollback (p q : ProviderState) (name : String)
    (newCl newCancel : Nat) (h : mapLookup p.clusters name = none) :
    ((addFunc p name newCl newCancel false true).2 = [newCancel]
      ∧ providerGet (addFunc p name newCl newCancel false true).1 name
          = .error (.fmtError (clusterNotFoundMsg name))
      ∧ mapLookup (addFunc p name newCl newCancel false true).1.cancelFns name
          = none)
    ∧ (engageRollback q name newCl newCancel).2 = [newCancel]
    ∧ (mapLookup q.clusters name = some newCl →
        providerGet (engageRollback q name newCl newCancel).1 name
            = .error (.fmtError (clusterNotFoundMsg name))
        ∧ mapLookup (engageRollback q name newCl newCancel).1.cancelFns name
            = none) := by
  have hfast : (mapLookup p.clusters name).isSome = false := by rw [h]; rfl
  have hguard : mapLookup (mapInsert p.clusters name newCl) name = some newCl :=
    mapLookup_insert_self p.clusters name newCl
  have hstep : addFunc p name newCl newCancel false true
      = (⟨mapErase (mapInsert p.clusters name newCl) name,
          mapErase (mapInsert p.cancelFns name newCancel) name⟩, [newCancel]) := by
    unfold addFunc engageRollback
    rw [hfast]
    simp [hguard]
  refine ⟨⟨?_, ?_, ?_⟩, ?_, ?_⟩
  · rw [hstep]
  · rw [hstep]
    unfold providerGet
    rw [mapLookup_erase_self]
  · rw [hstep]
    exact mapLookup_erase_self _ name
  · by_cases hg : mapLookup q.clusters name = some newCl <;>
      simp [engageRollback, hg]
  · intro hg
    have hroll : engageRollback q name newCl newCancel
        = (⟨mapErase q.clusters name, mapErase q.cancelFns name⟩, [newCancel]) := by
      unfold engageRollback
      rw [hg]
      simp
    rw [hroll]
    constructor
    · unfold providerGet
      rw [mapLookup_erase_self]
    · exact mapLookup_erase_self _ name

/-- Witness for C4: a concrete empty registry for the full add path, and
a concrete one-entry registry for the rollback block. -/
theorem engage_failure_rollback_witness :
    ((addFunc ⟨[], []⟩ "a" 5 9 false true).2 = [9]
      ∧ providerGet (addFunc ⟨[], []⟩ "a" 5 9 false true).1 "a"
          = .error (.fmtError (clusterNotFoundMsg "a"))
      ∧ mapLookup (addFunc ⟨[], []⟩ "a" 5 9 false true).1.cancelFns "a" = none)
    ∧ (engageRollback ⟨[("a", 5)], [("a", 9)]⟩ "a" 5 9).2 = [9]
    ∧ (mapLookup (⟨[("a", 5)], [("a", 9)]⟩ : ProviderState).clusters "a" = some 5 →
        providerGet (engageRollback ⟨[("a", 5)], [("a", 9)]⟩ "a" 5 9).1 "a"
            = .error (.fmtError (clusterNotFoundMsg "a"))
        ∧ mapLookup (engageRollback ⟨[("a", 5)], [("a", 9)]⟩ "a" 5 9).1.cancelFns "a"
            = none) :=
  engage_failure_rollback ⟨[], []⟩ ⟨[("a", 5)], [("a", 9)]⟩ "a" 5 9 rfl

/-! ### Registry key-set invariant (C5) -/

theorem keysMatch_insert (p : ProviderState) (name : String) (cl cf : Nat)
    (h : keysMatch p) :
    keysMatch ⟨mapInsert p.clusters name cl, mapInsert p.cancelFns name cf⟩ := by
  intro k
  by_cases hk : k = name
  · subst hk
    simp [mapLookup_insert_self]
  · show (mapLookup (mapInsert p.clusters name cl) k).isSome
        = (mapLookup (mapInsert p.cancelFns name cf) k).isSome
    rw [mapLookup_insert_ne _ _ _ _ hk, mapLookup_insert_ne _ _ _ _ hk]
    exact h k

theorem keysMatch_erase (p : ProviderState) (name : String)
    (h : keysMatch p) :
    keysMatch ⟨mapErase p.clusters name, mapErase p.cancelFns name⟩ := by
  intro k
  by_cases hk : k = name
  · subst hk
    simp [mapLookup_erase_self]
  · show (mapLookup (mapErase p.clusters name) k).isSome
        = (mapLookup (mapErase p.cancelFns name) k).isSome
    rw [mapLookup_erase_ne _ _ _ hk, mapLookup_erase_ne _ _ _ hk]
    exact h k

theorem keysMatch_step (p : ProviderState) (ev : ProviderEvent)
    (h : keysMatch p) : keysMatch (providerStep p ev) := by
  cases ev with
  | added name newCl newCancel createErr engageErr =>
    show keysMatch (addFunc p name newCl newCancel createErr engageErr).1
    cases hfast : (mapLookup p.clusters name).isSome with
    | true =>
      simpa [addFunc, hfast] using h
    | false =>
      cases createErr with
      | true => simpa [addFunc, hfast] using h
      | false =>
        cases engageErr with
        | false =>
          simpa [addFunc, hfast] using keysMatch_insert p name newCl newCancel h
        | true =>
          have hguard : mapLookup (mapInsert p.clusters name newCl) name
              = some newCl := mapLookup_insert_self p.clusters name newCl
          simpa [addFunc, engageRollback, hfast, hguard] using
            keysMatch_erase
              ⟨mapInsert p.clusters name newCl, mapInsert p.cancelFns name newCancel⟩
              name (keysMatch_insert p name newCl newCancel h)
  | deleted name indexErr indexKeysEmpty =>
    show keysMatch (deleteFunc p name indexErr indexKeysEmpty).1
    cases indexErr with
    | true => simpa [deleteFunc] using h
    | false =>
      cases indexKeysEmpty with
      | false => simpa [deleteFunc] using h
      | true =>
        cases hc : mapLookup p.cancelFns name with
        | none => simpa [deleteFunc, hc] using h
        | some cfn =>
          simpa [deleteFunc, hc] using keysMatch_erase p name h

/-- C5: the registry map from identity to scoped cluster and the map
from identity to cancel function have identical key sets at every point:
every mutation path of the discovery loop — insertion on discovery,
deletion on engagement-failure rollback, deletion on disengagement —
touches both maps together, so the invariant is preserved across any
sequence of discovery events. -/
theorem registry_key_sets_always_match (p : ProviderState)
    (evs : List ProviderEvent) (h : keysMatch p) :
    keysMatch (providerRun p evs) := by
  induction evs generalizing p with
  | nil => exact h
  | cons ev evs ih =>
    show keysMatch (providerRun (providerStep p ev) evs)
    exact ih (providerStep p ev) (keysMatch_step p ev h)

/-- Witness for C5: the invariant evaluated after a concrete event
sequence containing a successful discovery, a failed engagement and a
disengagement, starting from the empty registry. -/
theorem registry_key_sets_always_match_witness :
    keysMatch (providerRun ⟨[], []⟩
      [.added "a" 1 2 false false,
       .added "b" 3 4 false true,
       .deleted "a" false true]) :=
  registry_key_sets_always_match ⟨[], []⟩
    [.added "a" 1 2 false false,
     .added "b" 3 4 false true,
     .deleted "a" false true]
    (fun _ => rfl)

end KcpProvider
